import Mathlib

/-!
A shallow embedding of the acme environment loop (`acme/environment_loop.py`)
and of the ValueDice builder (`acme/agents/jax/value_dice/builder.py`),
together with proofs of the specification's claims about them.

Conventions of the embedding:
* Python `while` loops become fuel-indexed structural recursion; running out
  of fuel is reported as the model-level error `RunError.fuel` (the Python
  loop would simply keep running).
* Exceptions become `Except`: a raised Python exception is `.error`, and the
  mutable state that survives an exception (counter, logger) is threaded
  explicitly and returned alongside the outcome.
* `time.time()` becomes reads of an arbitrary clock function `t : Nat → ℚ`
  at successive call indices; each call advances the index by one.
* numpy scalars that may be NaN (`np.mean` of an empty list) become `NpFloat`.
-/

namespace Acme

/-- A structured (possibly nested) reward value, as handled by
`tree.map_structure` in the source: a scalar leaf or a finite sequence of
sub-rewards (covering vector- and dict-shaped reward specs). Reward
arithmetic is embedded over exact integers. -/
inductive RewardTree where
  | leaf : ℤ → RewardTree
  | node : List RewardTree → RewardTree

mutual

/-- Element-wise addition over matching reward structures, the embedding of
`tree.map_structure(operator.iadd, episode_return, timestep.reward)`.
On mismatched structures (which `tree.map_structure` rejects at runtime)
the first argument is returned. -/
def RewardTree.add : RewardTree → RewardTree → RewardTree
  | .leaf a, .leaf b => .leaf (a + b)
  | .node xs, .node ys => .node (RewardTree.addList xs ys)
  | t, _ => t

/-- Pointwise addition of two lists of reward structures. -/
def RewardTree.addList : List RewardTree → List RewardTree → List RewardTree
  | x :: xs, y :: ys => RewardTree.add x y :: RewardTree.addList xs ys
  | _, _ => []

end

/-- A `dm_env` timestep as seen by the loop: observation, reward and the
`timestep.last()` flag. -/
structure TimeStep (Obs : Type) where
  observation : Obs
  reward : RewardTree
  isLast : Bool

/-- A numpy floating-point result that may be NaN. -/
inductive NpFloat where
  | nan : NpFloat
  | val : ℚ → NpFloat
deriving DecidableEq

/-- The embedding of `np.mean`: NaN on the empty list, otherwise the mean. -/
def npMean (l : List ℚ) : NpFloat :=
  match l with
  | [] => .nan
  | _ => .val (l.sum / l.length)

/-- The shared `counting.Counter` restricted to the two fields the loop
increments: episode and step totals. -/
structure Counter where
  episodes : Nat
  steps : Nat
deriving DecidableEq

/-- `counter.increment(episodes=..., steps=...)`, returning the updated
counts. -/
def Counter.increment (c : Counter) (episodes steps : Nat) : Counter :=
  { episodes := c.episodes + episodes, steps := c.steps + steps }

/-- A deterministic `dm_env.Environment` with explicit internal state `E`.
`reset` and `step` may raise (`Except Err`); `reward_spec_zeros` is the value
`tree.map_structure(_generate_zeros_from_spec, reward_spec())`. -/
structure Environment (E Obs A Err : Type) where
  reward_spec_zeros : RewardTree
  reset : E → Except Err (E × TimeStep Obs)
  step : E → A → Except Err (E × TimeStep Obs)

/-- A deterministic `core.Actor` with explicit internal state `S`;
`select_action` and `update` may raise. -/
structure Actor (S Obs A Err : Type) where
  observe_first : S → TimeStep Obs → S
  select_action : S → Obs → Except Err (S × A)
  observe : S → A → TimeStep Obs → S
  update : S → Except Err S

/-- An `EnvLoopObserver`: its callbacks receive the environment state, the
timestep (and the action), and it contributes metrics to the episode result. -/
structure Observer (E O Obs A : Type) where
  observe_first : E → TimeStep Obs → O → O
  observe : E → TimeStep Obs → A → O → O
  get_metrics : O → List (String × ℚ)

/-- The static part of an `EnvironmentLoop`: the environment, the actor, the
(shared) observer behaviour and the `should_update` flag. -/
structure EnvironmentLoop (E S O Obs A Err : Type) where
  environment : Environment E Obs A Err
  actor : Actor S Obs A Err
  observer : Observer E O Obs A
  should_update : Bool

/-- The episode result record built at the end of `run_episode`.
`reward_trace` is a ghost field (not a key of the Python result dict): the
chronological list of step rewards that were accumulated, recorded only so
that specifications can talk about them. -/
structure EpisodeResult where
  episode_length : Nat
  episode_return : RewardTree
  steps_per_second : ℚ
  env_reset_duration_sec : ℚ
  select_action_duration_sec : NpFloat
  env_step_duration_sec : NpFloat
  counts : Counter
  observer_metrics : List (String × ℚ)
  reward_trace : List RewardTree

/-- One record written by `run` to the logger: the episode result plus the
`episode_duration` key added by `run`. -/
structure LoggedResult where
  result : EpisodeResult
  episode_duration : ℚ

/-- The mutable world threaded through the loop: environment and actor
state, observer states, the shared counter, the telemetry written so far
(the logger), and the clock index. -/
structure WorldState (E S O : Type) where
  env : E
  actor : S
  observers : List O
  counter : Counter
  logs : List LoggedResult
  clock : Nat

/-- Outcomes of the loop other than normal return: `raised e` is a Python
exception `e` propagating out of the environment or actor; `valueError` is
the `ValueError` raised by `run` when both stopping conditions are given
(the spec's `ConfigurationError`); `fuel` is the model artifact for a loop
that has not terminated within the given fuel. -/
inductive RunError (Err : Type) where
  | raised : Err → RunError Err
  | valueError : RunError Err
  | fuel : RunError Err
deriving DecidableEq

variable {E S O Obs A Err : Type}

/-- The mutable state of the `while not timestep.last()` loop inside
`run_episode`. `reward_trace` is the ghost trace of accumulated rewards. -/
structure EpisodeState (E S O Obs : Type) where
  env : E
  actor : S
  observers : List O
  clock : Nat
  episode_steps : Nat
  episode_return : RewardTree
  select_action_durations : List ℚ
  env_step_durations : List ℚ
  reward_trace : List RewardTree
  timestep : TimeStep Obs

/-- The body of `while not timestep.last():` in `run_episode`
(environment_loop.py lines 107-140), one fuel unit per iteration.
Each `time.time()` call advances the clock index by one; on an exception the
state reached so far is returned together with the error. -/
def episodeLoop (L : EnvironmentLoop E S O Obs A Err) (t : Nat → ℚ) :
    Nat → EpisodeState E S O Obs → EpisodeState E S O Obs × Except (RunError Err) Unit
  | 0, st => if st.timestep.isLast then (st, .ok ()) else (st, .error .fuel)
  | fuel + 1, st =>
    if st.timestep.isLast then (st, .ok ())
    else
        -- episode_steps += 1
        let episode_steps := st.episode_steps + 1
        -- select_action_start = time.time()
        let select_action_start := t st.clock
        match L.actor.select_action st.actor st.timestep.observation with
        | .error e =>
            ({ st with episode_steps := episode_steps, clock := st.clock + 1 },
             .error (.raised e))
        | .ok (actorState, action) =>
          let select_action_durations :=
            st.select_action_durations ++ [t (st.clock + 1) - select_action_start]
          -- env_step_start = time.time()
          let env_step_start := t (st.clock + 2)
          match L.environment.step st.env action with
          | .error e =>
              ({ st with
                  episode_steps := episode_steps, actor := actorState,
                  select_action_durations := select_action_durations,
                  clock := st.clock + 3 },
               .error (.raised e))
          | .ok (envState, timestep) =>
            let env_step_durations :=
              st.env_step_durations ++ [t (st.clock + 3) - env_step_start]
            let actorState := L.actor.observe actorState action timestep
            let observers :=
              st.observers.map (fun o => L.observer.observe envState timestep action o)
            match (if L.should_update then L.actor.update actorState else .ok actorState) with
            | .error e =>
                ({ st with
                    episode_steps := episode_steps, env := envState,
                    actor := actorState, observers := observers,
                    select_action_durations := select_action_durations,
                    env_step_durations := env_step_durations,
                    timestep := timestep, clock := st.clock + 4 },
                 .error (.raised e))
            | .ok actorState =>
              -- episode_return = tree.map_structure(operator.iadd, episode_return, timestep.reward)
              let episode_return := RewardTree.add st.episode_return timestep.reward
              episodeLoop L t fuel
                { env := envState, actor := actorState, observers := observers,
                  clock := st.clock + 4, episode_steps := episode_steps,
                  episode_return := episode_return,
                  select_action_durations := select_action_durations,
                  env_step_durations := env_step_durations,
                  reward_trace := st.reward_trace ++ [timestep.reward],
                  timestep := timestep }

/-- `EnvironmentLoop.run_episode` (environment_loop.py lines 76-158).
On an exception the counter and the logs are untouched (they are only
mutated on the success path, after the loop). -/
def run_episode (L : EnvironmentLoop E S O Obs A Err) (t : Nat → ℚ) (fuel : Nat)
    (w : WorldState E S O) :
    WorldState E S O × Except (RunError Err) EpisodeResult :=
  -- episode_start_time = time.time()
  let episode_start_time := t w.clock
  -- episode_return = tree.map_structure(_generate_zeros_from_spec, reward_spec())
  let episode_return := L.environment.reward_spec_zeros
  -- env_reset_start = time.time()
  let env_reset_start := t (w.clock + 1)
  match L.environment.reset w.env with
  | .error e => ({ w with clock := w.clock + 2 }, .error (.raised e))
  | .ok (envState, timestep) =>
    let env_reset_duration := t (w.clock + 2) - env_reset_start
    let actorState := L.actor.observe_first w.actor timestep
    let observers := w.observers.map (fun o => L.observer.observe_first envState timestep o)
    match episodeLoop L t fuel
        { env := envState, actor := actorState, observers := observers,
          clock := w.clock + 3, episode_steps := 0,
          episode_return := episode_return,
          select_action_durations := [], env_step_durations := [],
          reward_trace := [], timestep := timestep } with
    | (st, .error e) =>
        ({ w with
            env := st.env, actor := st.actor, observers := st.observers,
            clock := st.clock },
         .error e)
    | (st, .ok _) =>
      -- counts = self._counter.increment(episodes=1, steps=episode_steps)
      let counts := w.counter.increment 1 st.episode_steps
      let steps_per_second := (st.episode_steps : ℚ) / (t st.clock - episode_start_time)
      let result : EpisodeResult :=
        { episode_length := st.episode_steps,
          episode_return := st.episode_return,
          steps_per_second := steps_per_second,
          env_reset_duration_sec := env_reset_duration,
          select_action_duration_sec := npMean st.select_action_durations,
          env_step_duration_sec := npMean st.env_step_durations,
          counts := counts,
          observer_metrics := (st.observers.map L.observer.get_metrics).flatten,
          reward_trace := st.reward_trace }
      ({ w with
          env := st.env, actor := st.actor, observers := st.observers,
          counter := counts, clock := st.clock + 1 },
       .ok result)

/-- The body of one iteration of the `while` loop in `run`
(environment_loop.py lines 197-203): time the episode, run it, attach
`episode_duration` and write the record to the logger. -/
def runOneEpisode (L : EnvironmentLoop E S O Obs A Err) (t : Nat → ℚ) (ef : Nat)
    (w : WorldState E S O) :
    WorldState E S O × Except (RunError Err) EpisodeResult :=
  -- episode_start = time.time()
  match run_episode L t ef { w with clock := w.clock + 1 } with
  | (w', .error e) => (w', .error e)
  | (w', .ok result) =>
    -- result = {**result, **{'episode_duration': time.time() - episode_start}}
    let logged : LoggedResult := { result := result, episode_duration := t w'.clock - t w.clock }
    ({ w' with clock := w'.clock + 1, logs := w'.logs ++ [logged] }, .ok result)

/-- The termination predicate closed over in `run`
(environment_loop.py lines 188-191). -/
def should_terminate (num_episodes num_steps : Option Nat)
    (episode_count step_count : Nat) : Bool :=
  (match num_episodes with
   | some n => decide (episode_count ≥ n)
   | none => false) ||
  (match num_steps with
   | some s => decide (step_count ≥ s)
   | none => false)

/-- The `while not should_terminate(...)` loop of `run`
(environment_loop.py lines 196-203), one fuel unit per episode. -/
def runLoop (L : EnvironmentLoop E S O Obs A Err) (t : Nat → ℚ) (ef : Nat)
    (num_episodes num_steps : Option Nat) :
    Nat → Nat → Nat → WorldState E S O → WorldState E S O × Except (RunError Err) Nat
  | 0, episode_count, step_count, w =>
    if should_terminate num_episodes num_steps episode_count step_count then
      (w, .ok step_count)
    else (w, .error .fuel)
  | fuel + 1, episode_count, step_count, w =>
    if should_terminate num_episodes num_steps episode_count step_count then
      (w, .ok step_count)
    else
      match runOneEpisode L t ef w with
      | (w', .error e) => (w', .error e)
      | (w', .ok result) =>
        runLoop L t ef num_episodes num_steps fuel
          (episode_count + 1) (step_count + result.episode_length) w'

/-- `EnvironmentLoop.run` (environment_loop.py lines 160-205).
The `signals.runtime_terminator()` context manager only installs a signal
handler and is a no-op in a signal-free model. -/
def run (L : EnvironmentLoop E S O Obs A Err) (t : Nat → ℚ) (ef : Nat)
    (num_episodes num_steps : Option Nat) (fuel : Nat) (w : WorldState E S O) :
    WorldState E S O × Except (RunError Err) Nat :=
  -- if not (num_episodes is None or num_steps is None): raise ValueError(...)
  if !(num_episodes.isNone || num_steps.isNone) then
    (w, .error .valueError)
  else
    runLoop L t ef num_episodes num_steps fuel 0 0 w

/-- `k` successive iterations of `run`'s loop body, collecting the episode
results; the reference against which `run`'s episode accounting is stated. -/
def runEpisodesN (L : EnvironmentLoop E S O Obs A Err) (t : Nat → ℚ) (ef : Nat) :
    Nat → WorldState E S O → WorldState E S O × Except (RunError Err) (List EpisodeResult)
  | 0, w => (w, .ok [])
  | k + 1, w =>
    match runOneEpisode L t ef w with
    | (w', .error e) => (w', .error e)
    | (w', .ok r) =>
      match runEpisodesN L t ef k w' with
      | (w'', .error e) => (w'', .error e)
      | (w'', .ok rs) => (w'', .ok (r :: rs))

/-- Replace the actor's `select_action` and `update` and the environment's
`step` by arbitrary functions, leaving everything else unchanged; used to
state that a zero-step episode never invokes any of the three. -/
def withOverrides (L : EnvironmentLoop E S O Obs A Err)
    (f : S → Obs → Except Err (S × A))
    (g : E → A → Except Err (E × TimeStep Obs))
    (u : S → Except Err S) : EnvironmentLoop E S O Obs A Err :=
  { L with
      actor := { L.actor with select_action := f, update := u },
      environment := { L.environment with step := g } }

/-!
The ValueDice builder (`acme/agents/jax/value_dice/builder.py`): the replay
table construction, the learner's iterator wiring and the dataset iterator.
-/

/-- The fields of `ValueDiceConfig` that `builder.py` reads. -/
structure ValueDiceConfig where
  replay_table_name : String
  batch_size : Nat
  num_sgd_steps_per_step : Nat
  min_replay_size : Nat
  max_replay_size : Nat
  samples_per_insert : ℚ
  samples_per_insert_tolerance_rate : ℚ
  prefetch_size : Nat
  policy_learning_rate : ℚ
  nu_learning_rate : ℚ
  discount : ℚ
  alpha : ℚ
  policy_reg_scale : ℚ
  nu_reg_scale : ℚ
deriving DecidableEq

/-- The configuration of a `reverb.rate_limiters.SampleToInsertRatio`
rate limiter, as constructed in `make_replay_tables`. -/
structure SampleToInsertRatio where
  min_size_to_sample : Nat
  samples_per_insert : ℚ
  error_buffer : ℚ
deriving DecidableEq, Inhabited

/-- A `reverb.selectors` selection or eviction policy. -/
inductive Selector where
  | uniform : Selector
  | fifo : Selector
  | prioritized : Selector
deriving DecidableEq, Inhabited

/-- The configuration of a `reverb.Table` as constructed in
`make_replay_tables` (the `signature`, a dtype/shape description used for
serialization, is outside the model). -/
structure Table where
  name : String
  sampler : Selector
  remover : Selector
  max_size : Nat
  rate_limiter : SampleToInsertRatio
deriving DecidableEq, Inhabited

/-- `ValueDiceBuilder.make_replay_tables` (builder.py lines 90-117). -/
def make_replay_tables (config : ValueDiceConfig) : List Table :=
  let samples_per_insert_tolerance :=
    config.samples_per_insert_tolerance_rate * config.samples_per_insert
  let error_buffer := (config.min_replay_size : ℚ) * samples_per_insert_tolerance
  let limiter : SampleToInsertRatio :=
    { min_size_to_sample := config.min_replay_size,
      samples_per_insert := config.samples_per_insert,
      error_buffer := error_buffer }
  [{ name := config.replay_table_name,
     sampler := .uniform,
     remover := .fifo,
     max_size := config.max_replay_size,
     rate_limiter := limiter }]

/-- An `optax.adam` optimizer, reduced to its learning rate. -/
structure AdamOptimizer where
  learning_rate : ℚ
deriving DecidableEq

/-- The arguments `make_learner` passes to the `ValueDiceLearner`
constructor, for the data-independent fields plus the two iterators
(`D` demonstrations, `R` replay). -/
structure ValueDiceLearner (D R : Type) where
  policy_optimizer : AdamOptimizer
  nu_optimizer : AdamOptimizer
  discount : ℚ
  alpha : ℚ
  policy_reg_scale : ℚ
  nu_reg_scale : ℚ
  num_sgd_steps_per_step : Nat
  iterator_replay : R
  iterator_demonstrations : D

/-- `ValueDiceBuilder.make_learner` (builder.py lines 58-88):
`make_demonstrations` is the builder's `self._make_demonstrations`, called
with `batch_size * num_sgd_steps_per_step`, and `dataset` is the replay
iterator argument. -/
def make_learner (D R : Type) (config : ValueDiceConfig)
    (make_demonstrations : Nat → D) (dataset : R) : ValueDiceLearner D R :=
  let iterator_demonstration :=
    make_demonstrations (config.batch_size * config.num_sgd_steps_per_step)
  { policy_optimizer := { learning_rate := config.policy_learning_rate },
    nu_optimizer := { learning_rate := config.nu_learning_rate },
    discount := config.discount,
    alpha := config.alpha,
    policy_reg_scale := config.policy_reg_scale,
    nu_reg_scale := config.nu_reg_scale,
    num_sgd_steps_per_step := config.num_sgd_steps_per_step,
    iterator_replay := dataset,
    iterator_demonstrations := iterator_demonstration }

/-- The request `make_dataset_iterator` (builder.py lines 119-129) passes to
`datasets.make_reverb_dataset`. -/
structure ReverbDatasetRequest where
  table : String
  batch_size : Nat
  prefetch_size : Nat
deriving DecidableEq

/-- `ValueDiceBuilder.make_dataset_iterator` (builder.py lines 119-129),
reduced to the dataset request it issues. -/
def make_dataset_iterator (config : ValueDiceConfig) : ReverbDatasetRequest :=
  { table := config.replay_table_name,
    batch_size := config.batch_size * config.num_sgd_steps_per_step,
    prefetch_size := config.prefetch_size }

/-!
The admission-control semantics of the replay table. The `reverb` library
itself is not part of this repository's sources, so the behaviour of
`SampleToInsertRatio` and of the table counters is modelled from the spec
(sections 3, 4.2 and 4.3) and checked against the configuration that
`make_replay_tables` builds.
-/

/-- Modelled from the spec: the counters of a reverb table — current size,
total items inserted and total items sampled (`reverb.Table` is not in this
repository's sources). -/
structure TableState where
  size : Nat
  inserted : Nat
  sampled : Nat
deriving DecidableEq

/-- Modelled from the spec: the `SampleToInsertRatio` admission predicate
for a sample call — admitted only if `size ≥ min_size_to_sample` and
`sampled < samples_per_insert * inserted + error_buffer / 2`
(`reverb.rate_limiters` is not in this repository's sources). -/
def sampleAllowed (rl : SampleToInsertRatio) (s : TableState) : Bool :=
  decide (rl.min_size_to_sample ≤ s.size) &&
  decide ((s.sampled : ℚ) < rl.samples_per_insert * s.inserted + rl.error_buffer / 2)

/-- Modelled from the spec: an insert proceeds and updates the counters,
evicting the oldest item (Fifo) when the table is at capacity, so the size
is capped at `max_size` (`reverb.Table` is not in this repository's
sources). -/
def insertStep (tbl : Table) (s : TableState) : TableState :=
  { size := min (s.size + 1) tbl.max_size,
    inserted := s.inserted + 1,
    sampled := s.sampled }

/-- Modelled from the spec: a sample call returns an item (`some`) only when
the rate limiter admits it, and then increments the sampled counter; a
non-admitted call blocks (`none`) (`reverb.Table` is not in this
repository's sources). -/
def sampleStep (tbl : Table) (s : TableState) : Option TableState :=
  if sampleAllowed tbl.rate_limiter s then
    some { s with sampled := s.sampled + 1 }
  else
    none

/-- The states of a replay table reachable from empty by inserts and
admitted samples. -/
inductive Reachable (tbl : Table) : TableState → Prop where
  | init : Reachable tbl { size := 0, inserted := 0, sampled := 0 }
  | insert {s : TableState} : Reachable tbl s → Reachable tbl (insertStep tbl s)
  | sample {s s' : TableState} : Reachable tbl s → sampleStep tbl s = some s' →
      Reachable tbl s'

/-!
Concrete deterministic instances on which the theorems are witnessed.
-/

/-- A deterministic environment whose episodes are exactly one step long:
`reset` yields a non-terminal timestep with reward 0 and `step` yields a
terminal timestep with reward 1. Its state counts the steps taken. -/
def demoEnv : Environment Nat Unit Unit Unit :=
  { reward_spec_zeros := .leaf 0,
    reset := fun k => .ok (k, { observation := (), reward := .leaf 0, isLast := false }),
    step := fun k _ => .ok (k + 1, { observation := (), reward := .leaf 1, isLast := true }) }

/-- A stateless actor that always succeeds and always picks the unit
action. -/
def demoActor : Actor Unit Unit Unit Unit :=
  { observe_first := fun s _ => s,
    select_action := fun s _ => .ok (s, ()),
    observe := fun s _ _ => s,
    update := fun s => .ok s }

/-- A trivial observer contributing no metrics. -/
def demoObserver : Observer Nat Unit Unit Unit :=
  { observe_first := fun _ _ o => o,
    observe := fun _ _ _ o => o,
    get_metrics := fun _ => [] }

/-- The loop pairing `demoEnv` with `demoActor`. -/
def demoLoop : EnvironmentLoop Nat Unit Unit Unit Unit Unit :=
  { environment := demoEnv, actor := demoActor, observer := demoObserver,
    should_update := true }

/-- The initial world: fresh counter, empty telemetry, clock at zero. -/
def demoWorld : WorldState Nat Unit Unit :=
  { env := 0, actor := (), observers := [], counter := { episodes := 0, steps := 0 },
    logs := [], clock := 0 }

/-- A concrete clock for the demonstrations: the n-th `time.time()` call
returns n seconds. -/
def demoTime : Nat → ℚ := fun n => (n : ℚ)

/-- A deterministic environment with one three-step episode: the reset
timestep carries (ignored) reward 100, the three steps carry rewards 1, 2
and 3, and the third step is terminal. -/
def env123 : Environment Nat Unit Unit Unit :=
  { reward_spec_zeros := .leaf 0,
    reset := fun _ => .ok (0, { observation := (), reward := .leaf 100, isLast := false }),
    step := fun k _ =>
      .ok (k + 1, { observation := (), reward := .leaf ((k : ℤ) + 1),
                    isLast := decide (k + 1 ≥ 3) }) }

/-- The loop pairing `env123` with `demoActor`. -/
def loop123 : EnvironmentLoop Nat Unit Unit Unit Unit Unit :=
  { demoLoop with environment := env123 }

/-- An actor whose `select_action` raises on every call. -/
def failActor : Actor Unit Unit Unit Unit :=
  { demoActor with select_action := fun _ _ => .error () }

/-- The loop pairing `demoEnv` with the raising actor. -/
def failLoop : EnvironmentLoop Nat Unit Unit Unit Unit Unit :=
  { demoLoop with actor := failActor }

/-- An environment whose reset timestep is already terminal: every episode
has zero steps. -/
def terminalEnv : Environment Nat Unit Unit Unit :=
  { demoEnv with
      reset := fun k => .ok (k, { observation := (), reward := .leaf 0, isLast := true }) }

/-- The loop pairing `terminalEnv` with `demoActor`. -/
def terminalLoop : EnvironmentLoop Nat Unit Unit Unit Unit Unit :=
  { demoLoop with environment := terminalEnv }

/-- A concrete replay configuration for the witnesses. -/
def demoConfig : ValueDiceConfig :=
  { replay_table_name := "default",
    batch_size := 64,
    num_sgd_steps_per_step := 2,
    min_replay_size := 2,
    max_replay_size := 1000,
    samples_per_insert := 1,
    samples_per_insert_tolerance_rate := 1 / 10,
    prefetch_size := 4,
    policy_learning_rate := 1 / 10000,
    nu_learning_rate := 1 / 10000,
    discount := 99 / 100,
    alpha := 1 / 20,
    policy_reg_scale := 1 / 10000,
    nu_reg_scale := 10 }

/-!
Lemmas about the episode loop.
-/

/-- If the current timestep is already terminal the loop exits immediately,
whatever the fuel: the `while` condition fails before any body runs. -/
lemma episodeLoop_last (L : EnvironmentLoop E S O Obs A Err) (t : Nat → ℚ)
    (fuel : Nat) (st : EpisodeState E S O Obs) (h : st.timestep.isLast = true) :
    episodeLoop L t fuel st = (st, .ok ()) := by
  cases fuel <;> simp [episodeLoop, h]

/-- A successful pass of the episode loop extends the reward trace by the
rewards of the steps it took, folds them (left to right) into the episode
return, and counts one step per reward. -/
lemma episodeLoop_ok_spec (L : EnvironmentLoop E S O Obs A Err) (t : Nat → ℚ) :
    ∀ (fuel : Nat) (st st' : EpisodeState E S O Obs),
      episodeLoop L t fuel st = (st', .ok ()) →
      ∃ new, st'.reward_trace = st.reward_trace ++ new ∧
        st'.episode_return = new.foldl RewardTree.add st.episode_return ∧
        st'.episode_steps = st.episode_steps + new.length := by
  intro fuel
  induction fuel with
  | zero =>
    intro st st' h
    by_cases hl : st.timestep.isLast
    · simp [episodeLoop, hl] at h
      exact ⟨[], by simp [← h]⟩
    · simp [episodeLoop, hl] at h
  | succ n ih =>
    intro st st' h
    by_cases hl : st.timestep.isLast
    · simp [episodeLoop, hl] at h
      exact ⟨[], by simp [← h]⟩
    · simp only [episodeLoop, hl, Bool.false_eq_true, if_false] at h
      split at h
      · exact absurd h (by simp)
      · split at h
        · exact absurd h (by simp)
        · split at h
          · exact absurd h (by simp)
          · rename_i xs actorState1 action hsel xe envState timestep hstep xu actorState2 hupd
            obtain ⟨new, h1, h2, h3⟩ := ih _ _ h
            refine ⟨timestep.reward :: new, ?_, ?_, ?_⟩
            · simpa [List.append_assoc] using h1
            · simpa using h2
            · simp only [List.length_cons]
              simp at h3
              omega

/-!
Claim C4: episode return accumulation.
-/

/-- Claim C4: for an episode of k environment steps with rewards r_1..r_k,
the result record of `run_episode` has `episode_return` equal to the
element-wise (left-to-right) sum of r_1..r_k starting from the zero value of
the reward spec, and the k rewards are exactly the steps taken; the reward
carried by the reset timestep never enters the fold. -/
theorem run_episode_return_is_reward_sum (L : EnvironmentLoop E S O Obs A Err)
    (t : Nat → ℚ) (fuel : Nat) (w : WorldState E S O)
    (ret : RewardTree) (trace : List RewardTree) (len : Nat)
    (h : (run_episode L t fuel w).2.map
        (fun r => (r.episode_return, r.reward_trace, r.episode_length)) =
        .ok (ret, trace, len)) :
    ret = trace.foldl RewardTree.add L.environment.reward_spec_zeros ∧
    trace.length = len := by
  simp only [run_episode] at h
  split at h
  · simp [Except.map] at h
  · split at h
    · simp [Except.map] at h
    · rename_i xr envState timestep hreset xl st u hloop
      obtain ⟨new, h1, h2, h3⟩ := episodeLoop_ok_spec L t fuel _ _ hloop
      simp only [Except.map, Except.ok.injEq, Prod.mk.injEq] at h
      obtain ⟨ha, hb, hc⟩ := h
      subst ha hb hc
      simp only [List.nil_append] at h1
      simp at h2 h3
      exact ⟨by rw [h2, h1], by rw [h3, h1]⟩

/-- Witness for C4: the three-step episode with rewards 1, 2, 3 (and a reset
timestep carrying reward 100) yields `episode_return` 6, and 6 is indeed the
fold of those three rewards over the zero reward. -/
theorem run_episode_return_is_reward_sum_witness :
    ((run_episode loop123 demoTime 5 demoWorld).2.map
        (fun r => (r.episode_return, r.reward_trace, r.episode_length)) =
        .ok (.leaf 6, [.leaf 1, .leaf 2, .leaf 3], 3)) ∧
    (RewardTree.leaf 6 =
        ([RewardTree.leaf 1, RewardTree.leaf 2, RewardTree.leaf 3].foldl
          RewardTree.add loop123.environment.reward_spec_zeros) ∧
      [RewardTree.leaf 1, RewardTree.leaf 2, RewardTree.leaf 3].length = 3) :=
  ⟨by rfl,
   run_episode_return_is_reward_sum loop123 demoTime 5 demoWorld
     (.leaf 6) [.leaf 1, .leaf 2, .leaf 3] 3 (by rfl)⟩

/-!
Claim C9: an episode whose reset timestep is already terminal.
-/

/-- Claim C9: if the environment's reset returns an already-terminal
timestep, `run_episode` performs zero steps, returns a result with
`episode_length` 0 and `episode_return` equal to the reward spec's zero,
with the two per-step duration metrics equal to the mean of an empty list
(NaN), still increments the shared counter by one episode and zero steps —
and never calls `select_action`, `step` or `update`: replacing all three by
arbitrary functions does not change the outcome. -/
theorem run_episode_terminal_reset (L : EnvironmentLoop E S O Obs A Err)
    (t : Nat → ℚ) (fuel : Nat) (w : WorldState E S O)
    (envState : E) (ts : TimeStep Obs)
    (hreset : L.environment.reset w.env = .ok (envState, ts))
    (hlast : ts.isLast = true) :
    (∃ res, (run_episode L t fuel w).2 = .ok res ∧
      res.episode_length = 0 ∧
      res.episode_return = L.environment.reward_spec_zeros ∧
      res.select_action_duration_sec = NpFloat.nan ∧
      res.env_step_duration_sec = NpFloat.nan ∧
      res.counts = w.counter.increment 1 0) ∧
    (run_episode L t fuel w).1.counter = w.counter.increment 1 0 ∧
    (∀ f g u, run_episode (withOverrides L f g u) t fuel w = run_episode L t fuel w) := by
  have hloop := episodeLoop_last L t fuel
    { env := envState, actor := L.actor.observe_first w.actor ts,
      observers := w.observers.map (fun o => L.observer.observe_first envState ts o),
      clock := w.clock + 3, episode_steps := 0,
      episode_return := L.environment.reward_spec_zeros,
      select_action_durations := [], env_step_durations := [],
      reward_trace := [], timestep := ts } (by simpa using hlast)
  refine ⟨⟨{ episode_length := 0,
             episode_return := L.environment.reward_spec_zeros,
             steps_per_second := ((0 : Nat) : ℚ) / (t (w.clock + 3) - t w.clock),
             env_reset_duration_sec := t (w.clock + 2) - t (w.clock + 1),
             select_action_duration_sec := npMean [],
             env_step_duration_sec := npMean [],
             counts := w.counter.increment 1 0,
             observer_metrics :=
               ((w.observers.map (fun o => L.observer.observe_first envState ts o)).map
                 L.observer.get_metrics).flatten,
             reward_trace := [] }, ?_, ?_, ?_, ?_, ?_, ?_⟩, ?_, ?_⟩
  · simp [run_episode, hreset, hloop]
  · simp
  · simp
  · simp [npMean]
  · simp [npMean]
  · simp
  · simp [run_episode, hreset, hloop]
  · intro f g u
    have hloop2 := episodeLoop_last (withOverrides L f g u) t fuel
      { env := envState, actor := L.actor.observe_first w.actor ts,
        observers := w.observers.map (fun o => L.observer.observe_first envState ts o),
        clock := w.clock + 3, episode_steps := 0,
        episode_return := L.environment.reward_spec_zeros,
        select_action_durations := [], env_step_durations := [],
        reward_trace := [], timestep := ts } (by simpa using hlast)
    simp only [withOverrides] at hloop2
    simp [run_episode, withOverrides, hreset, hloop, hloop2]

/-- Witness for C9: `terminalLoop` resets straight into a terminal timestep,
so its episode has zero steps, zero return, NaN step-duration metrics and a
counter increment of one episode and zero steps. -/
theorem run_episode_terminal_reset_witness :
    (terminalLoop.environment.reset demoWorld.env =
        .ok (0, { observation := (), reward := .leaf 0, isLast := true }) ∧
      ({ observation := (), reward := RewardTree.leaf 0,
         isLast := true } : TimeStep Unit).isLast = true) ∧
    ((∃ res, (run_episode terminalLoop demoTime 7 demoWorld).2 = .ok res ∧
        res.episode_length = 0 ∧
        res.episode_return = terminalLoop.environment.reward_spec_zeros ∧
        res.select_action_duration_sec = NpFloat.nan ∧
        res.env_step_duration_sec = NpFloat.nan ∧
        res.counts = demoWorld.counter.increment 1 0) ∧
      (run_episode terminalLoop demoTime 7 demoWorld).1.counter =
        demoWorld.counter.increment 1 0 ∧
      (∀ f g u, run_episode (withOverrides terminalLoop f g u) demoTime 7 demoWorld =
        run_episode terminalLoop demoTime 7 demoWorld)) :=
  ⟨⟨rfl, rfl⟩,
   run_episode_terminal_reset terminalLoop demoTime 7 demoWorld 0
     { observation := (), reward := .leaf 0, isLast := true } rfl rfl⟩

/-!
Claim C3: both stopping conditions set.
-/

/-- Claim C3: when both `num_episodes` and `num_steps` are given, `run`
raises the configuration error (`ValueError` in the source) before anything
happens: the returned world is the input world unchanged, so no episode was
run, no environment reset occurred, nothing was logged and the counter was
not touched. -/
theorem run_both_set_raises (L : EnvironmentLoop E S O Obs A Err) (t : Nat → ℚ)
    (ef : Nat) (n s fuel : Nat) (w : WorldState E S O) :
    run L t ef (some n) (some s) fuel w = (w, .error .valueError) := rfl

/-!
Claims C1 and C2: the termination behaviour of `run`.
-/

/-- With `num_episodes = n` and `num_steps` unset, the loop of `run` from
episode count `ec ≤ n` performs exactly the remaining `n - ec` episode
iterations and adds up their `episode_length`s. -/
lemma runLoop_some_none (L : EnvironmentLoop E S O Obs A Err) (t : Nat → ℚ)
    (ef : Nat) (n : Nat) :
    ∀ (fuel ec sc : Nat) (w : WorldState E S O), ec ≤ n → n - ec ≤ fuel →
      runLoop L t ef (some n) none fuel ec sc w =
        ((runEpisodesN L t ef (n - ec) w).1,
         (runEpisodesN L t ef (n - ec) w).2.map
           (fun rs => sc + (rs.map EpisodeResult.episode_length).sum)) := by
  intro fuel
  induction fuel with
  | zero =>
    intro ec sc w h1 h2
    have hec : ec = n := by omega
    subst hec
    simp [runLoop, should_terminate, runEpisodesN, Nat.sub_self, Except.map]
  | succ m ih =>
    intro ec sc w h1 h2
    by_cases hec : ec = n
    · subst hec
      simp [runLoop, should_terminate, runEpisodesN, Nat.sub_self, Except.map]
    · have hlt : ec < n := by omega
      have hterm : should_terminate (some n) none ec sc = false := by
        simp [should_terminate]
        omega
      have hsub : n - ec = (n - (ec + 1)) + 1 := by omega
      rw [hsub]
      simp only [runLoop, hterm, Bool.false_eq_true, if_false]
      split
      · rename_i w1 e hone
        simp [runEpisodesN, hone, Except.map]
      · rename_i w1 r hone
        rw [ih (ec + 1) (sc + r.episode_length) w1 (by omega) (by omega)]
        rcases hrest : runEpisodesN L t ef (n - (ec + 1)) w1 with ⟨w2, r2⟩
        cases r2 with
        | error e => simp [runEpisodesN, hone, hrest, Except.map]
        | ok rs => simp [runEpisodesN, hone, hrest, Except.map, Nat.add_assoc]

/-- Claim C1: with `num_episodes = n` (and `num_steps` unset) and enough
fuel, `run` performs exactly `n` episode iterations (`runEpisodesN n`) and
returns the sum of their step counts; an error inside some episode
propagates identically on both sides. -/
theorem run_num_episodes (L : EnvironmentLoop E S O Obs A Err) (t : Nat → ℚ)
    (ef : Nat) (n fuel : Nat) (w : WorldState E S O) (h : n ≤ fuel) :
    run L t ef (some n) none fuel w =
      ((runEpisodesN L t ef n w).1,
       (runEpisodesN L t ef n w).2.map
         (fun rs => (rs.map EpisodeResult.episode_length).sum)) := by
  have hmain := runLoop_some_none L t ef n fuel 0 0 w (Nat.zero_le n) (by omega)
  simpa [run, Nat.zero_add] using hmain

/-- Witness for C1: two episodes within fuel three. -/
theorem run_num_episodes_witness :
    2 ≤ 3 ∧
    run demoLoop demoTime 5 (some 2) none 3 demoWorld =
      ((runEpisodesN demoLoop demoTime 5 2 demoWorld).1,
       (runEpisodesN demoLoop demoTime 5 2 demoWorld).2.map
         (fun rs => (rs.map EpisodeResult.episode_length).sum)) :=
  ⟨by decide, run_num_episodes demoLoop demoTime 5 2 3 demoWorld (by decide)⟩

/-- When the loop of `run` (with `num_episodes` unset and `num_steps = s`)
returns normally, the returned total is at least both the starting count and
`s`, and it is the starting count plus the lengths of the complete episodes
that were run. -/
lemma runLoop_none_some_ok (L : EnvironmentLoop E S O Obs A Err) (t : Nat → ℚ)
    (ef : Nat) (s : Nat) :
    ∀ (fuel ec sc : Nat) (w w_f : WorldState E S O) (total : Nat),
      runLoop L t ef none (some s) fuel ec sc w = (w_f, .ok total) →
      sc ≤ total ∧ s ≤ total ∧
      ∃ k rs, runEpisodesN L t ef k w = (w_f, .ok rs) ∧
        total = sc + (rs.map EpisodeResult.episode_length).sum := by
  intro fuel
  induction fuel with
  | zero =>
    intro ec sc w w_f total h
    simp only [runLoop] at h
    split at h
    · rename_i hterm
      simp at h
      obtain ⟨hw, htot⟩ := h
      simp [should_terminate] at hterm
      subst hw htot
      exact ⟨le_refl _, hterm, 0, [], by simp [runEpisodesN], by simp⟩
    · simp at h
  | succ m ih =>
    intro ec sc w w_f total h
    simp only [runLoop] at h
    split at h
    · rename_i hterm
      simp at h
      obtain ⟨hw, htot⟩ := h
      simp [should_terminate] at hterm
      subst hw htot
      exact ⟨le_refl _, hterm, 0, [], by simp [runEpisodesN], by simp⟩
    · rcases hone : runOneEpisode L t ef w with ⟨w1, r1⟩
      rw [hone] at h
      cases r1 with
      | error e => simp at h
      | ok r =>
        obtain ⟨hsc, hs, k, rs, hN, htotal⟩ := ih (ec + 1) (sc + r.episode_length) w1 w_f total h
        refine ⟨by omega, hs, k + 1, r :: rs, by simp [runEpisodesN, hone, hN], ?_⟩
        simp only [List.map_cons, List.sum_cons]
        omega

/-- Claim C2: if `run` with `num_steps = s` (and `num_episodes` unset)
returns a total, that total is at least `s`, and it is exactly the sum of
the lengths of complete episodes (`runEpisodesN k`): the episode in progress
when the threshold is crossed is finished, never truncated, so the total may
exceed `s`. -/
theorem run_num_steps (L : EnvironmentLoop E S O Obs A Err) (t : Nat → ℚ)
    (ef : Nat) (s fuel : Nat) (w : WorldState E S O) (total : Nat)
    (h : (run L t ef none (some s) fuel w).2 = .ok total) :
    s ≤ total ∧
    ∃ k rs w_f, runEpisodesN L t ef k w = (w_f, .ok rs) ∧
      run L t ef none (some s) fuel w = (w_f, .ok total) ∧
      total = (rs.map EpisodeResult.episode_length).sum := by
  have hrun : run L t ef none (some s) fuel w =
      runLoop L t ef none (some s) fuel 0 0 w := by
    simp [run]
  rw [hrun] at h ⊢
  rcases hp : runLoop L t ef none (some s) fuel 0 0 w with ⟨w_f, r⟩
  rw [hp] at h
  cases r with
  | error e => simp at h
  | ok tot =>
    simp at h
    subst h
    obtain ⟨h0, hs, k, rs, hN, htot⟩ :=
      runLoop_none_some_ok L t ef s fuel 0 0 w w_f tot hp
    exact ⟨hs, k, rs, w_f, hN, rfl, by simpa using htot⟩

/-- Witness for C2: with a one-step episode and `num_steps = 1`, `run`
returns total 1 ≥ 1. -/
theorem run_num_steps_witness :
    1 ≤ 1 ∧
    ∃ k rs w_f, runEpisodesN demoLoop demoTime 5 k demoWorld = (w_f, .ok rs) ∧
      run demoLoop demoTime 5 none (some 1) 2 demoWorld = (w_f, .ok 1) ∧
      1 = (rs.map EpisodeResult.episode_length).sum :=
  run_num_steps demoLoop demoTime 5 1 2 demoWorld 1 (by rfl)

/-!
Claim C5: error propagation and per-episode atomicity.
-/

/-- If `run_episode` propagates an error, the counter and the telemetry of
the world it returns are exactly those it was given: the counter increment
and any logging happen only after a successful episode. -/
lemma run_episode_error_world (L : EnvironmentLoop E S O Obs A Err) (t : Nat → ℚ)
    (ef : Nat) (w w' : WorldState E S O) (e : RunError Err)
    (h : run_episode L t ef w = (w', .error e)) :
    w'.counter = w.counter ∧ w'.logs = w.logs := by
  simp only [run_episode] at h
  split at h
  · simp at h
    obtain ⟨hw, -⟩ := h
    subst hw
    exact ⟨rfl, rfl⟩
  · split at h
    · simp at h
      obtain ⟨hw, -⟩ := h
      subst hw
      exact ⟨rfl, rfl⟩
    · simp at h

/-- The same preservation for one full iteration of `run`'s loop body. -/
lemma runOneEpisode_error_world (L : EnvironmentLoop E S O Obs A Err) (t : Nat → ℚ)
    (ef : Nat) (w w' : WorldState E S O) (e : RunError Err)
    (h : runOneEpisode L t ef w = (w', .error e)) :
    w'.counter = w.counter ∧ w'.logs = w.logs := by
  simp only [runOneEpisode] at h
  split at h
  · rename_i x w1 e1 heq
    simp at h
    obtain ⟨hw, he⟩ := h
    subst hw
    simpa using run_episode_error_world L t ef _ _ _ heq
  · simp at h

/-- With both stopping conditions unset, if the first `k` loop iterations
complete and iteration `k + 1` propagates an error, `run`'s loop returns
that error from the erroring iteration's world. -/
lemma runLoop_none_none_error (L : EnvironmentLoop E S O Obs A Err) (t : Nat → ℚ)
    (ef : Nat) :
    ∀ (k fuel ec sc : Nat) (w w_k w_e : WorldState E S O) (rs : List EpisodeResult)
      (er : RunError Err),
      runEpisodesN L t ef k w = (w_k, .ok rs) →
      runOneEpisode L t ef w_k = (w_e, .error er) →
      k < fuel →
      runLoop L t ef none none fuel ec sc w = (w_e, .error er) := by
  intro k
  induction k with
  | zero =>
    intro fuel ec sc w w_k w_e rs er hN hone hk
    simp [runEpisodesN] at hN
    obtain ⟨hw, -⟩ := hN
    subst hw
    cases fuel with
    | zero => omega
    | succ m =>
      simp only [runLoop, should_terminate, Bool.or_self, Bool.false_eq_true, if_false]
      rw [hone]
  | succ kk ih =>
    intro fuel ec sc w w_k w_e rs er hN hone hk
    simp only [runEpisodesN] at hN
    split at hN
    · simp at hN
    · rename_i w1 r h1
      split at hN
      · simp at hN
      · rename_i w2 rs2 h2
        simp at hN
        obtain ⟨hw2, -⟩ := hN
        cases fuel with
        | zero => omega
        | succ m =>
          simp only [runLoop, should_terminate, Bool.or_self, Bool.false_eq_true, if_false]
          rw [h1]
          exact ih m (ec + 1) (sc + r.episode_length) w1 w_k w_e rs2 er
            (by rw [h2, hw2]) hone (by omega)

/-- Claim C5: when a component (environment step, action selection or actor
update) raises during the episode after `k` completed episodes, the raised
error propagates out of `run_episode` and out of `run` unchanged, and the
counter and the telemetry are exactly those of the `k` completed episodes:
nothing of the partial episode is recorded. -/
theorem run_error_propagates (L : EnvironmentLoop E S O Obs A Err) (t : Nat → ℚ)
    (ef : Nat) (k fuel : Nat) (w w_k w_e : WorldState E S O)
    (rs : List EpisodeResult) (err : Err)
    (hk : runEpisodesN L t ef k w = (w_k, .ok rs))
    (he : run_episode L t ef { w_k with clock := w_k.clock + 1 } = (w_e, .error (.raised err)))
    (hfuel : k < fuel) :
    run L t ef none none fuel w = (w_e, .error (.raised err)) ∧
    w_e.counter = w_k.counter ∧ w_e.logs = w_k.logs := by
  have hone : runOneEpisode L t ef w_k = (w_e, .error (.raised err)) := by
    simp [runOneEpisode, he]
  have hcl := run_episode_error_world L t ef _ _ _ he
  refine ⟨?_, by simpa using hcl.1, by simpa using hcl.2⟩
  have hmain := runLoop_none_none_error L t ef k fuel 0 0 w w_k w_e rs _ hk hone hfuel
  simpa [run] using hmain

/-- Witness for C5: an actor whose `select_action` raises immediately (zero
completed episodes): the error surfaces from `run`, with counter and logs
untouched. -/
theorem run_error_propagates_witness :
    (runEpisodesN failLoop demoTime 5 0 demoWorld = (demoWorld, .ok []) ∧
      run_episode failLoop demoTime 5 { demoWorld with clock := demoWorld.clock + 1 } =
        ({ env := 0, actor := (), observers := [],
           counter := { episodes := 0, steps := 0 }, logs := [], clock := 5 },
         .error (.raised ())) ∧
      0 < 1) ∧
    (run failLoop demoTime 5 none none 1 demoWorld =
        ({ env := 0, actor := (), observers := [],
           counter := { episodes := 0, steps := 0 }, logs := [], clock := 5 },
         .error (.raised ())) ∧
      ({ env := 0, actor := (), observers := [],
         counter := { episodes := 0, steps := 0 }, logs := [],
         clock := 5 } : WorldState Nat Unit Unit).counter = demoWorld.counter ∧
      ({ env := 0, actor := (), observers := [],
         counter := { episodes := 0, steps := 0 }, logs := [],
         clock := 5 } : WorldState Nat Unit Unit).logs = demoWorld.logs) :=
  ⟨⟨rfl, rfl, by decide⟩,
   run_error_propagates failLoop demoTime 5 0 1 demoWorld demoWorld
     { env := 0, actor := (), observers := [],
       counter := { episodes := 0, steps := 0 }, logs := [], clock := 5 }
     [] () rfl rfl (by decide)⟩

/-!
Claims C6, C7, C8: the replay table built by `make_replay_tables`.
-/

/-- Claim C6: the rate limiter of the table built by `make_replay_tables`
has `min_size_to_sample` equal to the configured `min_replay_size`, and in
every reachable table state a sample call that returns an item has current
size at least that threshold. -/
theorem replay_sample_needs_min_size (cfg : ValueDiceConfig) (tbl : Table)
    (s s' : TableState)
    (htbl : tbl ∈ make_replay_tables cfg)
    (hreach : Reachable tbl s)
    (hs : sampleStep tbl s = some s') :
    tbl.rate_limiter.min_size_to_sample = cfg.min_replay_size ∧
    cfg.min_replay_size ≤ s.size := by
  simp only [make_replay_tables, List.mem_singleton] at htbl
  subst htbl
  refine ⟨rfl, ?_⟩
  simp only [sampleStep] at hs
  split at hs
  · rename_i hallow
    simp only [sampleAllowed, Bool.and_eq_true, decide_eq_true_eq] at hallow
    exact hallow.1
  · simp at hs

/-- Witness for C6: with `min_replay_size = 2`, the state reached by two
inserts has size 2 and admits a sample. -/
theorem replay_sample_needs_min_size_witness :
    ((make_replay_tables demoConfig).headI ∈ make_replay_tables demoConfig ∧
      Reachable ((make_replay_tables demoConfig).headI)
        { size := 2, inserted := 2, sampled := 0 } ∧
      sampleStep ((make_replay_tables demoConfig).headI)
        { size := 2, inserted := 2, sampled := 0 } =
        some { size := 2, inserted := 2, sampled := 1 }) ∧
    (((make_replay_tables demoConfig).headI).rate_limiter.min_size_to_sample =
        demoConfig.min_replay_size ∧
      demoConfig.min_replay_size ≤
        ({ size := 2, inserted := 2, sampled := 0 } : TableState).size) :=
  ⟨⟨List.Mem.head _,
    Reachable.insert (Reachable.insert Reachable.init),
    by norm_num [sampleStep, sampleAllowed, make_replay_tables, demoConfig]⟩,
   replay_sample_needs_min_size demoConfig _
     { size := 2, inserted := 2, sampled := 0 }
     { size := 2, inserted := 2, sampled := 1 }
     (List.Mem.head _)
     (Reachable.insert (Reachable.insert Reachable.init))
     (by norm_num [sampleStep, sampleAllowed, make_replay_tables, demoConfig])⟩

/-- Claim C7: for every configuration the rate limiter's `error_buffer` is
`min_replay_size * samples_per_insert_tolerance_rate * samples_per_insert`:
an absolute sample-insert imbalance tolerance that scales linearly with the
minimum size and the target ratio. -/
theorem replay_error_buffer_formula (cfg : ValueDiceConfig) :
    (make_replay_tables cfg).map (fun tbl => tbl.rate_limiter.error_buffer) =
      [(cfg.min_replay_size : ℚ) * cfg.samples_per_insert_tolerance_rate *
        cfg.samples_per_insert] := by
  simp only [make_replay_tables, List.map_cons, List.map_nil, List.cons.injEq,
    and_true]
  ring

/-- Claim C8: for every configuration `make_replay_tables` builds exactly
one table, with Uniform selection, Fifo eviction and maximum capacity equal
to the configured `max_replay_size`. -/
theorem replay_table_policies (cfg : ValueDiceConfig) :
    (make_replay_tables cfg).map
        (fun tbl => (tbl.sampler, tbl.remover, tbl.max_size)) =
      [(Selector.uniform, Selector.fifo, cfg.max_replay_size)] := by
  simp [make_replay_tables]

/-!
Claim C10: the two per-step data streams of the learner.
-/

/-- Claim C10: the batch size that `make_learner` requests for the
demonstration iterator is exactly the batch size `make_dataset_iterator`
requests for the replay dataset, namely
`batch_size * num_sgd_steps_per_step`. -/
theorem learner_batch_sizes_agree (D R : Type) (cfg : ValueDiceConfig)
    (make_demonstrations : Nat → D) (dataset : R) :
    (make_learner D R cfg make_demonstrations dataset).iterator_demonstrations =
      make_demonstrations (make_dataset_iterator cfg).batch_size ∧
    (make_dataset_iterator cfg).batch_size =
      cfg.batch_size * cfg.num_sgd_steps_per_step :=
  ⟨rfl, rfl⟩

end Acme
